import Mathlib

/-!
Verification of the reddit-classification-nlp scraper (`code/scraper.py`).

The script is shallowly embedded: a pandas `DataFrame` of posts is a
`List Post`; the on-disk CSV store is a function from path to optional
row list; pandas drop_duplicates with keep-first is `dedup_from`; the
transaction log is a list of lines; interactive input and HTTP traffic
are parameters of the model.
-/

/-- One row of the scraped dataset: `scrape_page` extracts exactly the
`title`, `ID` (the post fullname) and `subreddit` fields. -/
structure Post where
  title : String
  ID : String
  subreddit : String
deriving DecidableEq, Repr

/-- Keep the elements of `l` that do not occur in `seen` and have not
occurred earlier in `l`: pandas drop_duplicates with keep-first relative
to an initial set of already-seen rows. -/
def dedup_from {α : Type} [DecidableEq α] (seen : List α) : List α → List α
  | [] => []
  | x :: xs => if x ∈ seen then dedup_from seen xs else x :: dedup_from (x :: seen) xs

/-- pandas drop_duplicates with keep-first on full-row equality. -/
def drop_duplicates {α : Type} [DecidableEq α] (l : List α) : List α :=
  dedup_from [] l

/-- The set of rows seen after scanning `xs` starting from `seen`
(the accumulator `dedup_from` threads through its recursion). -/
def seen_after {α : Type} [DecidableEq α] (seen : List α) : List α → List α
  | [] => seen
  | x :: xs => if x ∈ seen then seen_after seen xs else seen_after (x :: seen) xs

/-- The CSV store: maps a path to the rows of the file there, `none` when
the file does not exist (`os.path.exists` is false). -/
def DataStore : Type := String → Option (List Post)

/-- `write_data(new_batch_titles, file_name)` with file_name defaulting to subreddit_data.csv:
reads the existing dataset from the fixed path
`../data/subreddit_data.csv` if that file exists (else an empty frame),
concatenates existing-then-new, drops duplicate rows keeping the first
occurrence, writes the result to `../data/` ++ `file_name`, and returns
`(len(updated) - len(new), len(updated))` (Python ints, so the first
component may be negative). -/
def write_data (fs : DataStore) (new_batch_titles : List Post)
    (file_name : String := "subreddit_data.csv") :
    DataStore × Int × Int :=
  let stored_titles := (fs "../data/subreddit_data.csv").getD []
  let updated_titles := drop_duplicates (stored_titles ++ new_batch_titles)
  (fun p => if p = "../data/" ++ file_name then some updated_titles else fs p,
   (updated_titles.length : Int) - (new_batch_titles.length : Int),
   (updated_titles.length : Int))

/-- The one entry line `update_transaction_log` writes per run. -/
def log_entry (now : String) (batch_size total_size : Int) : String :=
  "Execution Date: " ++ now ++ " | Posts Retrieved: " ++ toString batch_size ++
    " | Total Posts To Date: " ++ toString total_size

/-- The two header lines written when the log file is first created. -/
def log_header : List String :=
  ["Log of Script Executions", String.mk (List.replicate 50 '=')]

/-- `update_transaction_log(batch_size, total_size)`: appends one entry
line when `../data/transaction_log.txt` exists, otherwise creates it
with the two-line header followed by the entry line.  Returns the new
log contents (as lines) and the message printed. -/
def update_transaction_log (now : String) (batch_size total_size : Int)
    (log : Option (List String)) : List String × String :=
  match log with
  | some lines => (lines ++ [log_entry now batch_size total_size], "Transaction log updated.")
  | none => (log_header ++ [log_entry now batch_size total_size], "Transaction log created.")

/-- The credential record `get_credentials` loads or collects: five
string fields, stored as a flat JSON object. -/
structure Credentials where
  client_id : String
  client_secret : String
  user_agent : String
  username : String
  password : String
deriving DecidableEq, Repr

/-- `get_credentials()`: returns the stored credentials when the file
`../data/reddit_credentials.json` exists; otherwise prompts for the five
fields (`inputs`), writes them to the file, and returns them.  Result:
(returned credentials, file contents afterwards, whether the user was
prompted). -/
def get_credentials (store : Option Credentials) (inputs : Credentials) :
    Credentials × Option Credentials × Bool :=
  match store with
  | some credentials => (credentials, some credentials, false)
  | none => (inputs, some inputs, true)

/-- Number of pages `main` fetches, the constant `NUM_BATCHES = 10`. -/
def NUM_BATCHES : Nat := 10

/-- One `scrape_page` call, abstracted over the network: given the
current `after` cursor it yields the rows of the page and the next
cursor (the after field of the page data, `none` when the listing is
exhausted). -/
def Api : Type := Option String → List Post × Option String

/-- The pagination loop of `main`: `n` iterations starting from cursor
`after`; each iteration calls `scrape_page`, appends the batch, and
stores the returned cursor into the after parameter for the next call.
Returns the cursor passed to each call and the batches collected, in
call order. -/
def scrape_loop (api : Api) : Nat → Option String → List (Option String) × List (List Post)
  | 0, _ => ([], [])
  | n + 1, after =>
    let page := api after
    let rest := scrape_loop api n page.2
    (after :: rest.1, page.1 :: rest.2)

/-- The cursor obtained by starting from `c` and following the cursor
returned by the API `n` times. -/
def iter_cursor (api : Api) (c : Option String) : Nat → Option String
  | 0 => c
  | n + 1 => iter_cursor api (api c).2 n

/-- The whole environment `main` runs against: credential file and the
values the operator would type, the JSON object of the token-exchange
response, the HTTP status of the identity-check GET, the listing API,
the CSV store, the transaction-log file and the current wall clock. -/
structure Env where
  credFile : Option Credentials
  credInputs : Credentials
  tokenJson : List (String × String)
  meStatus : Nat
  subredditInput : String
  api : Api
  dataFiles : DataStore
  logFile : Option (List String)
  now : String

/-- Observable outcome of a successful `main` run. -/
structure RunResult where
  dataFiles : DataStore
  logFile : Option (List String)
  credFile : Option Credentials
  fetchCalls : List (Option String)
  printed : List String

/-- `main()`: load-or-prompt credentials, exchange them for a token
(reading the access_token field of the response JSON — a KeyError
propagates when the field is missing), check `/api/v1/me`; on HTTP 200 run the fixed-count
pagination loop, concatenate the batches, merge them into the dataset
and log the run; on any other status print the authorization message
and return. -/
def mainRun (env : Env) : Except String RunResult :=
  let cred := get_credentials env.credFile env.credInputs
  match env.tokenJson.lookup "access_token" with
  | none => .error "KeyError: access_token"
  | some _token =>
    if env.meStatus = 200 then
      let looped := scrape_loop env.api NUM_BATCHES none
      let new_batch_titles := looped.2.flatten
      let written := write_data env.dataFiles new_batch_titles
      let logged := update_transaction_log env.now written.2.1 written.2.2 env.logFile
      .ok { dataFiles := written.1
            logFile := some logged.1
            credFile := cred.2.1
            fetchCalls := looped.1
            printed := ["Database Updated!", logged.2] }
    else
      .ok { dataFiles := env.dataFiles
            logFile := env.logFile
            credFile := cred.2.1
            fetchCalls := []
            printed := ["Sorry, authorization not valid."] }

/-- A concrete post used to exercise the model. -/
def postA : Post := ⟨"A", "t3_a", "cats"⟩

/-- A concrete post used to exercise the model. -/
def postB : Post := ⟨"B", "t3_b", "cats"⟩

/-- A concrete post used to exercise the model. -/
def postC : Post := ⟨"C", "t3_c", "cats"⟩

/-- A CSV store holding the dataset `[postA, postB]` at the default
dataset path and nothing else. -/
def storeAB : DataStore :=
  fun p => if p = "../data/subreddit_data.csv" then some [postA, postB] else none

/-- An environment whose token-exchange response carries no
`access_token` field. -/
def envNoToken : Env where
  credFile := none
  credInputs := ⟨"id", "secret", "agent", "user", "pw"⟩
  tokenJson := [("error", "invalid_grant")]
  meStatus := 200
  subredditInput := "cats"
  api := fun _ => ([], none)
  dataFiles := fun _ => none
  logFile := none
  now := "2024-01-01 00:00:00"

/-- An environment with a valid token whose identity-check GET returns
HTTP 401. -/
def envUnauthorized : Env :=
  { envNoToken with tokenJson := [("access_token", "tok")], meStatus := 401 }

section DedupLemmas

variable {α : Type} [DecidableEq α]

theorem mem_dedup_from (a : α) (l : List α) : ∀ seen : List α,
    a ∈ dedup_from seen l ↔ a ∈ l ∧ a ∉ seen := by
  induction l with
  | nil => intro seen; simp [dedup_from]
  | cons x xs ih =>
    intro seen
    simp only [dedup_from]
    by_cases hx : x ∈ seen
    · rw [if_pos hx, ih seen]
      constructor
      · rintro ⟨h1, h2⟩
        exact ⟨List.mem_cons_of_mem x h1, h2⟩
      · rintro ⟨h1, h2⟩
        rcases List.mem_cons.mp h1 with rfl | h1
        · exact absurd hx h2
        · exact ⟨h1, h2⟩
    · rw [if_neg hx]
      constructor
      · intro h
        rcases List.mem_cons.mp h with rfl | h
        · exact ⟨List.mem_cons_self a xs, hx⟩
        · rcases (ih (x :: seen)).mp h with ⟨h1, h2⟩
          refine ⟨List.mem_cons_of_mem x h1, fun hs => h2 ?_⟩
          exact List.mem_cons_of_mem x hs
      · rintro ⟨h1, h2⟩
        rcases List.mem_cons.mp h1 with rfl | h1
        · exact List.mem_cons_self a _
        · by_cases hax : a = x
          · subst hax; exact List.mem_cons_self a _
          · refine List.mem_cons_of_mem x ((ih (x :: seen)).mpr ⟨h1, fun hs => ?_⟩)
            rcases List.mem_cons.mp hs with h | h
            · exact hax h
            · exact h2 h

theorem dedup_from_sublist (l : List α) : ∀ seen : List α,
    (dedup_from seen l).Sublist l := by
  induction l with
  | nil => intro seen; simp [dedup_from]
  | cons x xs ih =>
    intro seen
    simp only [dedup_from]
    by_cases hx : x ∈ seen
    · rw [if_pos hx]; exact (ih seen).cons x
    · rw [if_neg hx]; exact (ih (x :: seen)).cons₂ x

theorem dedup_from_nodup (l : List α) : ∀ seen : List α,
    (dedup_from seen l).Nodup := by
  induction l with
  | nil => intro seen; simp [dedup_from]
  | cons x xs ih =>
    intro seen
    simp only [dedup_from]
    by_cases hx : x ∈ seen
    · rw [if_pos hx]; exact ih seen
    · rw [if_neg hx]
      refine List.nodup_cons.mpr ⟨fun hmem => ?_, ih (x :: seen)⟩
      exact ((mem_dedup_from x xs (x :: seen)).mp hmem).2 (List.mem_cons_self x seen)

theorem mem_seen_after (a : α) (xs : List α) : ∀ seen : List α,
    a ∈ seen_after seen xs ↔ a ∈ seen ∨ a ∈ xs := by
  induction xs with
  | nil => intro seen; simp [seen_after]
  | cons x xs ih =>
    intro seen
    simp only [seen_after]
    by_cases hx : x ∈ seen
    · rw [if_pos hx, ih seen]
      constructor
      · rintro (h | h)
        · exact Or.inl h
        · exact Or.inr (List.mem_cons_of_mem x h)
      · rintro (h | h)
        · exact Or.inl h
        · rcases List.mem_cons.mp h with rfl | h
          · exact Or.inl hx
          · exact Or.inr h
    · rw [if_neg hx, ih (x :: seen)]
      constructor
      · rintro (h | h)
        · rcases List.mem_cons.mp h with rfl | h
          · exact Or.inr (List.mem_cons_self a xs)
          · exact Or.inl h
        · exact Or.inr (List.mem_cons_of_mem x h)
      · rintro (h | h)
        · exact Or.inl (List.mem_cons_of_mem x h)
        · rcases List.mem_cons.mp h with rfl | h
          · exact Or.inl (List.mem_cons_self a seen)
          · exact Or.inr h

theorem dedup_from_append (xs ys : List α) : ∀ seen : List α,
    dedup_from seen (xs ++ ys) =
      dedup_from seen xs ++ dedup_from (seen_after seen xs) ys := by
  induction xs with
  | nil => intro seen; simp [dedup_from, seen_after]
  | cons x xs ih =>
    intro seen
    simp only [List.cons_append, dedup_from, seen_after, List.append_eq]
    by_cases hx : x ∈ seen
    · rw [if_pos hx, if_pos hx, if_pos hx, ih seen]
    · rw [if_neg hx, if_neg hx, if_neg hx, ih (x :: seen), List.cons_append]

theorem dedup_from_eq_nil (ys : List α) : ∀ seen : List α,
    (∀ y ∈ ys, y ∈ seen) → dedup_from seen ys = [] := by
  induction ys with
  | nil => intro seen _; rfl
  | cons y ys ih =>
    intro seen h
    simp only [dedup_from]
    rw [if_pos (h y (List.mem_cons_self y ys))]
    exact ih seen fun z hz => h z (List.mem_cons_of_mem y hz)

theorem dedup_from_eq_self (l : List α) : ∀ seen : List α,
    l.Nodup → (∀ x ∈ l, x ∉ seen) → dedup_from seen l = l := by
  induction l with
  | nil => intro seen _ _; rfl
  | cons x xs ih =>
    intro seen hnd hdisj
    simp only [dedup_from]
    rw [if_neg (hdisj x (List.mem_cons_self x xs))]
    rcases List.nodup_cons.mp hnd with ⟨hxnot, hnd'⟩
    refine congrArg (x :: ·) (ih (x :: seen) hnd' fun y hy hmem => ?_)
    rcases List.mem_cons.mp hmem with rfl | hmem
    · exact hxnot hy
    · exact hdisj y (List.mem_cons_of_mem x hy) hmem

theorem dedup_from_congr (l : List α) : ∀ seen seen2 : List α,
    (∀ a, a ∈ seen ↔ a ∈ seen2) → dedup_from seen l = dedup_from seen2 l := by
  induction l with
  | nil => intro _ _ _; rfl
  | cons x xs ih =>
    intro seen seen2 h
    simp only [dedup_from]
    by_cases hx : x ∈ seen
    · rw [if_pos hx, if_pos ((h x).mp hx), ih seen seen2 h]
    · rw [if_neg hx, if_neg (fun hc => hx ((h x).mpr hc))]
      refine congrArg (x :: ·) (ih (x :: seen) (x :: seen2) fun a => ?_)
      simp only [List.mem_cons, h a]

end DedupLemmas

theorem scrape_loop_calls (api : Api) (n : Nat) : ∀ c : Option String,
    (scrape_loop api n c).1 = (List.range n).map (iter_cursor api c) := by
  induction n with
  | zero => intro c; simp [scrape_loop]
  | succ n ih =>
    intro c
    simp only [scrape_loop]
    rw [List.range_succ_eq_map, List.map_cons, List.map_map, ih (api c).2]
    rfl

theorem scrape_loop_batches_length (api : Api) (n : Nat) : ∀ c : Option String,
    (scrape_loop api n c).2.length = n := by
  induction n with
  | zero => intro c; rfl
  | succ n ih => intro c; simp [scrape_loop, ih (api c).2]

theorem iter_cursor_succ (api : Api) (n : Nat) : ∀ c : Option String,
    iter_cursor api c (n + 1) = (api (iter_cursor api c n)).2 := by
  induction n with
  | zero => intro c; rfl
  | succ n ih => intro c; exact ih (api c).2

theorem drop_duplicates_self_append {α : Type} [DecidableEq α] (D : List α) :
    drop_duplicates (D ++ D) = drop_duplicates D := by
  rw [drop_duplicates, drop_duplicates, dedup_from_append]
  rw [dedup_from_eq_nil D (seen_after [] D)
    (fun y hy => (mem_seen_after y D []).mpr (Or.inr hy))]
  simp

/-- C1: `write_data` returns as added_count exactly
`total_count - len(new_records)` — the final deduplicated row count
minus the size of the incoming batch, not the number of genuinely new
rows; in particular, with no existing dataset file and an incoming
batch of 3 records that survive deduplication, it returns
added_count 0 and total_count 3. -/
theorem c1_added_count_formula (fs : DataStore) (new : List Post) (file_name : String) :
    (write_data fs new file_name).2.1
      = (write_data fs new file_name).2.2 - (new.length : Int)
    ∧ (fs "../data/subreddit_data.csv" = none → new.Nodup → new.length = 3 →
        (write_data fs new file_name).2.1 = 0
        ∧ (write_data fs new file_name).2.2 = 3) := by
  refine ⟨rfl, fun h0 hnd h3 => ?_⟩
  have hdd : drop_duplicates new = new := by
    rw [drop_duplicates]
    exact dedup_from_eq_self new [] hnd (by simp)
  constructor
  · simp [write_data, h0, hdd, h3]
  · simp [write_data, h0, hdd, h3]

/-- Concrete input discharging the hypotheses of C1: empty store, three
pairwise-distinct incoming posts. -/
theorem c1_added_count_formula_witness :
    (write_data (fun _ => none) [postA, postB, postC]).2.1 = 0
    ∧ (write_data (fun _ => none) [postA, postB, postC]).2.2 = 3 :=
  (c1_added_count_formula (fun _ => none) [postA, postB, postC]
    "subreddit_data.csv").2 rfl (by decide) rfl

/-- C2: the orchestrated pagination loop performs exactly
NUM_BATCHES = 10 `scrape_page` calls for every API behaviour: the
cursor passed to call `i` is the `i`-th iterate starting from `none`,
each subsequent call receives the cursor the previous call returned,
and there is no early termination on an empty page or null cursor. -/
theorem c2_fixed_count_pagination (api : Api) :
    (scrape_loop api NUM_BATCHES none).1.length = NUM_BATCHES
    ∧ NUM_BATCHES = 10
    ∧ (scrape_loop api NUM_BATCHES none).1
        = (List.range NUM_BATCHES).map (iter_cursor api none)
    ∧ iter_cursor api none 0 = none
    ∧ (∀ i, iter_cursor api none (i + 1) = (api (iter_cursor api none i)).2)
    ∧ (scrape_loop api NUM_BATCHES none).2.length = NUM_BATCHES := by
  refine ⟨?_, rfl, scrape_loop_calls api NUM_BATCHES none, rfl,
    fun i => iter_cursor_succ api i none,
    scrape_loop_batches_length api NUM_BATCHES none⟩
  rw [scrape_loop_calls api NUM_BATCHES none]
  simp

/-- C3: merging the persisted dataset with itself is idempotent on
size: feeding the dataset `D` stored at the default path back in as the
incoming batch persists exactly the deduplicated `D`, so the total row
count is that of deduplicated `D`. -/
theorem c3_self_merge_idempotent (fs : DataStore) (D : List Post)
    (h : fs "../data/subreddit_data.csv" = some D) :
    (write_data fs D).1 "../data/subreddit_data.csv" = some (drop_duplicates D)
    ∧ (write_data fs D).2.2 = ((drop_duplicates D).length : Int) := by
  have hDD := drop_duplicates_self_append D
  constructor
  · simp [write_data, h, hDD]
  · simp [write_data, h, hDD]

/-- Concrete input discharging the hypothesis of C3: the stored dataset
`[postA, postB]` merged with itself. -/
theorem c3_self_merge_idempotent_witness :
    (write_data storeAB [postA, postB]).1 "../data/subreddit_data.csv"
      = some (drop_duplicates [postA, postB])
    ∧ (write_data storeAB [postA, postB]).2.2
      = ((drop_duplicates [postA, postB]).length : Int) :=
  c3_self_merge_idempotent storeAB [postA, postB] rfl

/-- C4: merging a batch of pairwise-distinct records disjoint from a
duplicate-free existing dataset of N rows (a missing file counting as
N = 0) persists exactly the N + K rows, existing then new. -/
theorem c4_disjoint_merge_adds (fs : DataStore) (new : List Post)
    (h1 : ((fs "../data/subreddit_data.csv").getD []).Nodup)
    (h2 : new.Nodup)
    (h3 : ∀ x ∈ new, x ∉ (fs "../data/subreddit_data.csv").getD []) :
    (write_data fs new).1 "../data/subreddit_data.csv"
      = some ((fs "../data/subreddit_data.csv").getD [] ++ new)
    ∧ (write_data fs new).2.2
      = (((fs "../data/subreddit_data.csv").getD []).length : Int)
        + (new.length : Int) := by
  have key : drop_duplicates ((fs "../data/subreddit_data.csv").getD [] ++ new)
      = (fs "../data/subreddit_data.csv").getD [] ++ new := by
    rw [drop_duplicates, dedup_from_append]
    rw [dedup_from_eq_self _ [] h1 (by simp)]
    rw [dedup_from_eq_self new (seen_after [] ((fs "../data/subreddit_data.csv").getD []))
      h2 ?_]
    intro x hx hmem
    rcases (mem_seen_after x _ []).mp hmem with hin | hin
    · exact List.not_mem_nil x hin
    · exact h3 x hx hin
  constructor
  · simp [write_data, key]
  · simp [write_data, key]

/-- Concrete input discharging the hypotheses of C4: `[postA, postB]`
stored, the disjoint batch `[postC]` incoming. -/
theorem c4_disjoint_merge_adds_witness :
    (write_data storeAB [postC]).1 "../data/subreddit_data.csv"
      = some ((storeAB "../data/subreddit_data.csv").getD [] ++ [postC])
    ∧ (write_data storeAB [postC]).2.2
      = (((storeAB "../data/subreddit_data.csv").getD []).length : Int)
        + (([postC] : List Post).length : Int) :=
  c4_disjoint_merge_adds storeAB [postC] (by decide) (by decide) (by decide)

/-- C5: `write_data` preserves order with first occurrence kept: for a
duplicate-free stored dataset, the persisted result is the stored rows
in their original order followed by exactly those incoming rows not
duplicating any earlier row, in incoming order (a duplicate-free
sublist of the incoming batch). -/
theorem c5_order_preserved (fs : DataStore) (stored new : List Post)
    (hf : fs "../data/subreddit_data.csv" = some stored)
    (hnd : stored.Nodup) :
    (write_data fs new).1 "../data/subreddit_data.csv"
      = some (stored ++ dedup_from stored new)
    ∧ (dedup_from stored new).Sublist new
    ∧ (∀ x, x ∈ dedup_from stored new ↔ x ∈ new ∧ x ∉ stored)
    ∧ (dedup_from stored new).Nodup := by
  have key : drop_duplicates (stored ++ new) = stored ++ dedup_from stored new := by
    rw [drop_duplicates, dedup_from_append]
    rw [dedup_from_eq_self stored [] hnd (by simp)]
    rw [dedup_from_congr new (seen_after [] stored) stored ?_]
    intro a
    rw [mem_seen_after a stored []]
    simp
  refine ⟨?_, dedup_from_sublist new stored,
    fun x => mem_dedup_from x new stored, dedup_from_nodup new stored⟩
  simp [write_data, hf, key]

/-- Concrete input discharging the hypotheses of C5: stored rows A, B
merged with incoming batch A, C give exactly A, B, C in that order. -/
theorem c5_order_preserved_witness :
    (write_data storeAB [postA, postC]).1 "../data/subreddit_data.csv"
      = some [postA, postB, postC] := by
  have h := (c5_order_preserved storeAB [postA, postB] [postA, postC] rfl (by decide)).1
  rw [h]
  decide

/-- C6: when the identity-check GET returns any status other than 200,
`main` performs no fetch calls, leaves the CSV store and transaction
log untouched, prints the authorization-failure message and returns
normally (an `ok` result, no error). -/
theorem c6_unauthorized_abort (env : Env) (tok : String)
    (htok : env.tokenJson.lookup "access_token" = some tok)
    (hstatus : env.meStatus ≠ 200) :
    mainRun env = .ok { dataFiles := env.dataFiles
                        logFile := env.logFile
                        credFile := (get_credentials env.credFile env.credInputs).2.1
                        fetchCalls := []
                        printed := ["Sorry, authorization not valid."] } := by
  simp only [mainRun, htok]
  rw [if_neg hstatus]

/-- Concrete input discharging the hypotheses of C6: a valid token but
an identity check answering 401. -/
theorem c6_unauthorized_abort_witness :
    mainRun envUnauthorized
      = .ok { dataFiles := envUnauthorized.dataFiles
              logFile := envUnauthorized.logFile
              credFile := (get_credentials envUnauthorized.credFile
                envUnauthorized.credInputs).2.1
              fetchCalls := []
              printed := ["Sorry, authorization not valid."] } :=
  c6_unauthorized_abort envUnauthorized "tok" rfl (by decide)

/-- C7: `update_transaction_log` never rewrites existing log content:
on an existing log it appends exactly one entry line in the fixed
format, leaving every prior line unchanged; on a missing log it writes
the fixed two-line header followed by that one entry line. -/
theorem c7_log_append_only (now : String) (b t : Int) :
    (∀ lines, update_transaction_log now b t (some lines)
        = (lines ++ [log_entry now b t], "Transaction log updated."))
    ∧ (∀ lines, (update_transaction_log now b t (some lines)).1.take lines.length
        = lines)
    ∧ (∀ lines, (update_transaction_log now b t (some lines)).1.length
        = lines.length + 1)
    ∧ update_transaction_log now b t none
        = (log_header ++ [log_entry now b t], "Transaction log created.")
    ∧ log_header.length = 2 := by
  refine ⟨fun lines => rfl, fun lines => ?_, fun lines => ?_, rfl, rfl⟩
  · simp [update_transaction_log, List.take_left]
  · simp [update_transaction_log]

/-- C8: when the token-exchange response body lacks the access_token
field, `main` fails with an unhandled lookup failure (the KeyError
propagates; there is no fallback branch). -/
theorem c8_missing_token_error (env : Env)
    (h : env.tokenJson.lookup "access_token" = none) :
    mainRun env = .error "KeyError: access_token" := by
  simp only [mainRun, h]

/-- Concrete input discharging the hypothesis of C8: a token response
holding only an error field. -/
theorem c8_missing_token_error_witness :
    mainRun envNoToken = .error "KeyError: access_token" :=
  c8_missing_token_error envNoToken rfl

/-- C9: credential read-after-write round trip: with no credentials
file, `get_credentials` persists the five entered fields and returns
them, and a second call against the resulting store returns the same
record without prompting, whatever would be typed the second time. -/
theorem c9_credentials_roundtrip (inputs inputs2 : Credentials) :
    (get_credentials none inputs).1 = inputs
    ∧ (get_credentials none inputs).2.1 = some inputs
    ∧ (get_credentials none inputs).2.2 = true
    ∧ (get_credentials (get_credentials none inputs).2.1 inputs2).1
        = (get_credentials none inputs).1
    ∧ (get_credentials (get_credentials none inputs).2.1 inputs2).2.2 = false :=
  ⟨rfl, rfl, rfl, rfl, rfl⟩

/-- C10: `write_data` always loads the existing dataset from the fixed
path `../data/subreddit_data.csv` regardless of its `file_name`
parameter, writes the merge to `../data/` ++ `file_name` leaving every
other path untouched, and its output depends on the store only through
the default path — so read-merge-rewrite of one file holds only for
the default `file_name`. -/
theorem c10_fixed_read_path (fs : DataStore) (new : List Post) (file_name : String) :
    (write_data fs new file_name).1 ("../data/" ++ file_name)
      = some (drop_duplicates ((fs "../data/subreddit_data.csv").getD [] ++ new))
    ∧ (∀ p, p ≠ "../data/" ++ file_name → (write_data fs new file_name).1 p = fs p)
    ∧ (∀ fs2 : DataStore,
        fs2 "../data/subreddit_data.csv" = fs "../data/subreddit_data.csv" →
        (write_data fs2 new file_name).1 ("../data/" ++ file_name)
          = (write_data fs new file_name).1 ("../data/" ++ file_name)) := by
  refine ⟨?_, fun p hp => ?_, fun fs2 h2 => ?_⟩
  · simp [write_data]
  · simp [write_data, hp]
  · simp [write_data, h2]

/-- Concrete input discharging the hypotheses of C10: writing to
`other.csv` leaves an unrelated path untouched, and a store differing
from `storeAB` everywhere except the default dataset path yields the
same written file. -/
theorem c10_fixed_read_path_witness :
    (write_data storeAB [postC] "other.csv").1 "../data/other_file.csv"
      = storeAB "../data/other_file.csv"
    ∧ (write_data
        (fun p => if p = "../data/subreddit_data.csv"
          then some [postA, postB] else some [postC])
        [postC] "other.csv").1 ("../data/" ++ "other.csv")
      = (write_data storeAB [postC] "other.csv").1 ("../data/" ++ "other.csv") :=
  ⟨(c10_fixed_read_path storeAB [postC] "other.csv").2.1
      "../data/other_file.csv" (by decide),
   (c10_fixed_read_path storeAB [postC] "other.csv").2.2
      (fun p => if p = "../data/subreddit_data.csv"
        then some [postA, postB] else some [postC]) (by decide)⟩
